import Mathlib

/-!
Verification of the IoT-labs repository (telemetry-ingestion demo).

Shallow embedding of the two source files:
* `src/lab2/main.py`  — FastAPI CRUD service over the `processed_agent_data`
  table, a WebSocket subscription registry, the `send_data_to_subscribers`
  fan-out helper and the `AgentData.check_timestamp` validator.
* `src/src/file_datasource.py` — `FileDatasource` reading three line-aligned
  CSV files into `AggregatedData` records.

Modelling conventions:
* SQL `Float` columns are modelled as exact rationals (`ℚ`) — the CRUD layer
  only stores and returns these values, never computes with them.
* `datetime` values are abstract instants (`Nat`) except for the ISO-8601
  validator, which gets a structured `PyDateTime`.
* Raised exceptions (`HTTPException 404`, `KeyError`, `ValueError`) are
  explicit `Option`/error constructors.
* The database session is the in-memory table state, threaded explicitly.
-/

namespace IoTLabs

/-! ## Relational store (`src/lab2/main.py`, table `processed_agent_data`) -/

/-- Request body of create/update: the seven required fields
(`ProcessedAgentDataCreate` in `main.py`). -/
structure ProcessedAgentDataCreate where
  road_state : String
  user_id : Int
  x : ℚ
  y : ℚ
  z : ℚ
  latitude : ℚ
  longitude : ℚ
  deriving DecidableEq, Repr

/-- A stored row of the `processed_agent_data` table: the seven fields plus
the auto-increment `id` and the server-assigned `timestamp`. -/
structure StoredRow where
  id : Nat
  road_state : String
  user_id : Int
  x : ℚ
  y : ℚ
  z : ℚ
  latitude : ℚ
  longitude : ℚ
  timestamp : Nat
  deriving DecidableEq, Repr

/-- Table state: rows in insertion order plus the auto-increment counter. -/
structure Database where
  rows : List StoredRow
  nextId : Nat
  deriving DecidableEq, Repr

/-- Well-formedness of a table state: primary keys are unique, and every
existing key is below the auto-increment counter (as maintained by an
auto-increment primary key column). -/
def Database.WF (db : Database) : Prop :=
  (db.rows.map StoredRow.id).Nodup ∧ ∀ r ∈ db.rows, r.id < db.nextId

instance (db : Database) : Decidable db.WF := by
  unfold Database.WF; infer_instance

/-- `db.query(ProcessedAgentData).filter(ProcessedAgentData.id == i).first()`:
first row of the table whose id equals `i`, if any. -/
def findRow (rows : List StoredRow) (i : Nat) : Option StoredRow :=
  rows.find? (fun r => r.id == i)

/-- `create_processed_agent_data`: builds a row from the seven submitted
fields, inserts it (id from the auto-increment counter, timestamp
server-assigned to the insertion instant `now`), commits, and returns the
refreshed row. -/
def create_processed_agent_data
    (db : Database) (data : ProcessedAgentDataCreate) (now : Nat) :
    StoredRow × Database :=
  let db_item : StoredRow :=
    { id := db.nextId
      road_state := data.road_state
      user_id := data.user_id
      x := data.x
      y := data.y
      z := data.z
      latitude := data.latitude
      longitude := data.longitude
      timestamp := now }
  (db_item, { rows := db.rows ++ [db_item], nextId := db.nextId + 1 })

/-- `read_processed_agent_data`: looks up by id; `none` models the
`HTTPException(status_code=404)` raised when no row matches. -/
def read_processed_agent_data (db : Database) (i : Nat) : Option StoredRow :=
  findRow db.rows i

/-- `list_processed_agent_data`: returns all rows. -/
def list_processed_agent_data (db : Database) : List StoredRow :=
  db.rows

/-- The in-place field assignments of the update endpoint: the seven request
fields overwrite the row's fields; `id` and `timestamp` are not assigned. -/
def applyUpdate (data : ProcessedAgentDataCreate) (r : StoredRow) : StoredRow :=
  { r with
    road_state := data.road_state
    user_id := data.user_id
    x := data.x
    y := data.y
    z := data.z
    latitude := data.latitude
    longitude := data.longitude }

/-- In-place mutation of the first row matching id `i` (the row object the
query returned), leaving every other row untouched. -/
def updateRows (rows : List StoredRow) (i : Nat) (data : ProcessedAgentDataCreate) :
    List StoredRow :=
  match rows with
  | [] => []
  | r :: rs =>
      if r.id == i then applyUpdate data r :: rs
      else r :: updateRows rs i data

/-- `update_processed_agent_data`: looks up by id; on `none` raises 404
(modelled as `(none, db)` — the table is unchanged); otherwise assigns the
seven fields in place, commits, and returns the refreshed row. -/
def update_processed_agent_data
    (db : Database) (i : Nat) (data : ProcessedAgentDataCreate) :
    Option StoredRow × Database :=
  match findRow db.rows i with
  | none => (none, db)
  | some db_item =>
      (some (applyUpdate data db_item),
       { rows := updateRows db.rows i data, nextId := db.nextId })

/-- Removal of the first row matching id `i` (the row object the query
returned), as performed by `db.delete(db_item)`. -/
def removeRow (rows : List StoredRow) (i : Nat) : List StoredRow :=
  match rows with
  | [] => []
  | r :: rs => if r.id == i then rs else r :: removeRow rs i

/-- `delete_processed_agent_data`: looks up by id; on `none` raises 404
(modelled as `(none, db)`); otherwise deletes the row, commits, and returns
the deleted row's prior contents. -/
def delete_processed_agent_data (db : Database) (i : Nat) :
    Option StoredRow × Database :=
  match findRow db.rows i with
  | none => (none, db)
  | some db_item => (some db_item, { rows := removeRow db.rows i, nextId := db.nextId })

/-! ### Store lemmas -/

theorem findRow_append_of_not_mem {rows : List StoredRow} {i : Nat}
    (h : ∀ r ∈ rows, r.id ≠ i) (l : List StoredRow) :
    findRow (rows ++ l) i = findRow l i := by
  induction rows with
  | nil => rfl
  | cons r rs ih =>
      have hr : r.id ≠ i := h r (List.mem_cons_self r rs)
      rw [findRow, List.cons_append, List.find?_cons_of_neg _ (by simpa using hr)]
      exact ih fun r' hm => h r' (List.mem_cons_of_mem r hm)

theorem findRow_singleton_self (r : StoredRow) : findRow [r] r.id = some r := by
  simp [findRow]

theorem applyUpdate_id (data : ProcessedAgentDataCreate) (r : StoredRow) :
    (applyUpdate data r).id = r.id := rfl

theorem applyUpdate_timestamp (data : ProcessedAgentDataCreate) (r : StoredRow) :
    (applyUpdate data r).timestamp = r.timestamp := rfl

theorem applyUpdate_idem (data : ProcessedAgentDataCreate) (r : StoredRow) :
    applyUpdate data (applyUpdate data r) = applyUpdate data r := rfl

theorem findRow_updateRows {rows : List StoredRow} {i : Nat} {r : StoredRow}
    (data : ProcessedAgentDataCreate) (h : findRow rows i = some r) :
    findRow (updateRows rows i data) i = some (applyUpdate data r) := by
  induction rows with
  | nil => simp [findRow] at h
  | cons r₀ rs ih =>
      by_cases hid : r₀.id = i
      · have hfind : findRow (r₀ :: rs) i = some r₀ := by
          simp [findRow, hid]
        rw [hfind] at h
        obtain rfl : r₀ = r := by injection h
        have h1 : updateRows (r₀ :: rs) i data = applyUpdate data r₀ :: rs := by
          simp [updateRows, hid]
        rw [h1, findRow,
          List.find?_cons_of_pos _ (by simp [applyUpdate_id, hid])]
      · have h' : findRow rs i = some r := by
          simpa [findRow, List.find?_cons, hid] using h
        simpa [updateRows, hid, findRow, List.find?_cons] using ih h'

theorem updateRows_idem (rows : List StoredRow) (i : Nat)
    (data : ProcessedAgentDataCreate) :
    updateRows (updateRows rows i data) i data = updateRows rows i data := by
  induction rows with
  | nil => rfl
  | cons r rs ih =>
      by_cases hid : r.id = i
      · simp [updateRows, hid, applyUpdate_id, applyUpdate_idem]
      · simp [updateRows, hid, ih]

theorem findRow_eq_none_iff {rows : List StoredRow} {i : Nat} :
    findRow rows i = none ↔ ∀ r ∈ rows, r.id ≠ i := by
  simp [findRow, List.find?_eq_none]

theorem findRow_mem {rows : List StoredRow} {i : Nat} {r : StoredRow}
    (h : findRow rows i = some r) : r ∈ rows ∧ r.id = i := by
  have hm := List.mem_of_find?_eq_some h
  have hp := List.find?_some h
  exact ⟨hm, by simpa using hp⟩

theorem findRow_removeRow_of_nodup {rows : List StoredRow} {i : Nat} {r : StoredRow}
    (hnd : (rows.map StoredRow.id).Nodup) (h : findRow rows i = some r) :
    findRow (removeRow rows i) i = none := by
  induction rows with
  | nil => simp [findRow] at h
  | cons r₀ rs ih =>
      rw [List.map_cons, List.nodup_cons] at hnd
      by_cases hid : r₀.id = i
      · have hnone : ∀ r' ∈ rs, r'.id ≠ i := by
          intro r' hm heq
          exact hnd.1 (by rw [hid, ← heq]; exact List.mem_map_of_mem StoredRow.id hm)
        have h1 : removeRow (r₀ :: rs) i = rs := by simp [removeRow, hid]
        rw [h1]
        exact findRow_eq_none_iff.mpr hnone
      · have h' : findRow rs i = some r := by
          simpa [findRow, List.find?_cons, hid] using h
        simpa [removeRow, hid, findRow, List.find?_cons] using ih hnd.2 h'

/-! ## WebSocket subscription registry (`src/lab2/main.py`)

`subscriptions : Dict[int, Set[WebSocket]]` is modelled as an association
list from user id to the set of connection handles (a duplicate-free list);
a `WebSocket` object is an abstract handle. -/

/-- An abstract WebSocket connection handle. -/
abbrev Conn := Nat

/-- The `subscriptions` dict: user id to set of connection handles. -/
abbrev Registry := List (Int × List Conn)

/-- `subscriptions[u]` read as a set, `[]` when the key is missing. -/
def subsOf (reg : Registry) (u : Int) : List Conn :=
  match reg with
  | [] => []
  | (v, s) :: rest => if v = u then s else subsOf rest u

/-- `u in subscriptions`. -/
def hasUser (reg : Registry) (u : Int) : Bool :=
  match reg with
  | [] => false
  | (v, _) :: rest => v == u || hasUser rest u

/-- `subscriptions[u] = s`: overwrite the entry for `u`, or append it. -/
def setEntry (reg : Registry) (u : Int) (s : List Conn) : Registry :=
  match reg with
  | [] => [(u, s)]
  | (v, t) :: rest => if v = u then (u, s) :: rest else (v, t) :: setEntry rest u s

/-- Python `set.add`: insert the element if absent, otherwise unchanged. -/
def addConn (s : List Conn) (c : Conn) : List Conn :=
  if c ∈ s then s else s ++ [c]

/-- The connect half of `websocket_endpoint`: after `accept`, create an
empty set for `user_id` if missing, then add the connection to it. -/
def wsConnect (reg : Registry) (u : Int) (c : Conn) : Registry :=
  setEntry reg u (addConn (subsOf reg u) c)

/-- Python `set.remove`: removes the element, raising `KeyError` (modelled
as `none`) when it is absent. -/
def removeConn (s : List Conn) (c : Conn) : Option (List Conn) :=
  if c ∈ s then some (s.erase c) else none

/-- The disconnect handler of `websocket_endpoint`:
`subscriptions[user_id].remove(websocket)`. `none` models an uncaught
`KeyError` — from the dict lookup when `user_id` has no entry, or from
`set.remove` when the connection is absent from the set. -/
def wsDisconnect (reg : Registry) (u : Int) (c : Conn) : Option Registry :=
  if hasUser reg u then
    match removeConn (subsOf reg u) c with
    | none => none
    | some s => some (setEntry reg u s)
  else none

/-- Registry states reachable by the service: starting from the empty dict,
connections are added by `websocket_endpoint` with a freshly accepted
WebSocket object (an object that cannot already be registered anywhere),
and removed by its disconnect handler when the removal succeeds. -/
inductive Reachable : Registry → Prop
  | init : Reachable []
  | connect {reg : Registry} {u : Int} {c : Conn} :
      Reachable reg → (∀ v, c ∉ subsOf reg v) → Reachable (wsConnect reg u c)
  | disconnect {reg reg' : Registry} {u : Int} {c : Conn} :
      Reachable reg → wsDisconnect reg u c = some reg' → Reachable reg'

/-! ### Registry lemmas -/

theorem subsOf_setEntry_same (reg : Registry) (u : Int) (s : List Conn) :
    subsOf (setEntry reg u s) u = s := by
  induction reg with
  | nil => simp [setEntry, subsOf]
  | cons e rest ih =>
      obtain ⟨v, t⟩ := e
      by_cases hv : v = u
      · simp [setEntry, hv, subsOf]
      · simp [setEntry, hv, subsOf, ih]

theorem subsOf_setEntry_other (reg : Registry) (u w : Int) (s : List Conn)
    (hw : w ≠ u) : subsOf (setEntry reg u s) w = subsOf reg w := by
  induction reg with
  | nil => simp [setEntry, subsOf, Ne.symm hw]
  | cons e rest ih =>
      obtain ⟨v, t⟩ := e
      by_cases hv : v = u
      · subst hv
        simp [setEntry, subsOf, Ne.symm hw]
      · simp [setEntry, hv, subsOf, ih]

theorem subsOf_wsConnect (reg : Registry) (u w : Int) (c : Conn) :
    subsOf (wsConnect reg u c) w =
      if w = u then addConn (subsOf reg u) c else subsOf reg w := by
  by_cases hw : w = u
  · subst hw; simp [wsConnect, subsOf_setEntry_same]
  · simp [wsConnect, hw, subsOf_setEntry_other _ _ _ _ hw]

theorem mem_addConn {s : List Conn} {c d : Conn} :
    d ∈ addConn s c ↔ d ∈ s ∨ d = c := by
  unfold addConn
  by_cases hc : c ∈ s
  · simp only [if_pos hc]
    constructor
    · exact Or.inl
    · rintro (h | rfl) <;> [exact h; exact hc]
  · simp [if_neg hc]

theorem addConn_nodup {s : List Conn} (h : s.Nodup) (c : Conn) :
    (addConn s c).Nodup := by
  unfold addConn
  by_cases hc : c ∈ s
  · simpa [hc]
  · rw [if_neg hc]
    exact List.Nodup.append h (List.nodup_singleton c) (List.disjoint_singleton.mpr hc)

/-- Invariant of the registry: every subscriber set is duplicate-free, and
a connection belongs to at most one user's set. -/
def RegistryInv (reg : Registry) : Prop :=
  (∀ u, (subsOf reg u).Nodup) ∧
  (∀ c u u', c ∈ subsOf reg u → c ∈ subsOf reg u' → u = u')

theorem registryInv_wsConnect {reg : Registry} {u : Int} {c : Conn}
    (hinv : RegistryInv reg) (hfresh : ∀ v, c ∉ subsOf reg v) :
    RegistryInv (wsConnect reg u c) := by
  obtain ⟨hnd, hone⟩ := hinv
  constructor
  · intro w
    rw [subsOf_wsConnect]
    by_cases hw : w = u
    · simpa [hw] using addConn_nodup (hnd u) c
    · simpa [hw] using hnd w
  · intro d u₁ u₂ h₁ h₂
    rw [subsOf_wsConnect] at h₁ h₂
    by_cases hd : d = c
    · subst hd
      by_cases hu₁ : u₁ = u
      · by_cases hu₂ : u₂ = u
        · rw [hu₁, hu₂]
        · rw [if_neg hu₂] at h₂
          exact absurd h₂ (hfresh u₂)
      · rw [if_neg hu₁] at h₁
        exact absurd h₁ (hfresh u₁)
    · have h₁' : d ∈ subsOf reg u₁ := by
        by_cases hu₁ : u₁ = u
        · rw [if_pos hu₁] at h₁
          rcases mem_addConn.mp h₁ with h | h
          · rw [hu₁]; exact h
          · exact absurd h hd
        · rwa [if_neg hu₁] at h₁
      have h₂' : d ∈ subsOf reg u₂ := by
        by_cases hu₂ : u₂ = u
        · rw [if_pos hu₂] at h₂
          rcases mem_addConn.mp h₂ with h | h
          · rw [hu₂]; exact h
          · exact absurd h hd
        · rwa [if_neg hu₂] at h₂
      exact hone d u₁ u₂ h₁' h₂'

theorem wsDisconnect_eq_some {reg reg' : Registry} {u : Int} {c : Conn}
    (h : wsDisconnect reg u c = some reg') :
    c ∈ subsOf reg u ∧ reg' = setEntry reg u ((subsOf reg u).erase c) := by
  unfold wsDisconnect at h
  by_cases hu : hasUser reg u
  · rw [if_pos hu] at h
    unfold removeConn at h
    by_cases hc : c ∈ subsOf reg u
    · rw [if_pos hc] at h
      exact ⟨hc, by injection h with h; exact h.symm⟩
    · rw [if_neg hc] at h
      cases h
  · rw [if_neg hu] at h
    cases h

theorem registryInv_wsDisconnect {reg reg' : Registry} {u : Int} {c : Conn}
    (hinv : RegistryInv reg) (h : wsDisconnect reg u c = some reg') :
    RegistryInv reg' := by
  obtain ⟨hnd, hone⟩ := hinv
  obtain ⟨hc, rfl⟩ := wsDisconnect_eq_some h
  constructor
  · intro w
    by_cases hw : w = u
    · subst hw
      rw [subsOf_setEntry_same]
      exact (hnd w).erase c
    · rw [subsOf_setEntry_other _ _ _ _ hw]
      exact hnd w
  · intro d u₁ u₂ h₁ h₂
    have sub : ∀ w, d ∈ subsOf (setEntry reg u ((subsOf reg u).erase c)) w →
        d ∈ subsOf reg w := by
      intro w hw
      by_cases hwu : w = u
      · subst hwu
        rw [subsOf_setEntry_same] at hw
        exact List.erase_subset _ _ hw
      · rwa [subsOf_setEntry_other _ _ _ _ hwu] at hw
    exact hone d u₁ u₂ (sub u₁ h₁) (sub u₂ h₂)

theorem reachable_registryInv {reg : Registry} (h : Reachable reg) :
    RegistryInv reg := by
  induction h with
  | init => exact ⟨fun u => by simp [subsOf], fun c u u' h₁ => by simp [subsOf] at h₁⟩
  | connect _ hfresh ih => exact registryInv_wsConnect ih hfresh
  | disconnect _ hdis ih => exact registryInv_wsDisconnect ih hdis

theorem wsDisconnect_not_mem {reg reg' : Registry} {u : Int} {c : Conn}
    (hinv : RegistryInv reg) (h : wsDisconnect reg u c = some reg') :
    ∀ v, c ∉ subsOf reg' v := by
  obtain ⟨hnd, hone⟩ := hinv
  obtain ⟨hc, rfl⟩ := wsDisconnect_eq_some h
  intro v hv
  by_cases hvu : v = u
  · subst hvu
    rw [subsOf_setEntry_same] at hv
    exact ((hnd v).mem_erase_iff.mp hv).1 rfl
  · rw [subsOf_setEntry_other _ _ _ _ hvu] at hv
    exact hvu (hone c v u hv hc)

/-! ## JSON fan-out helper (`send_data_to_subscribers` in `src/lab2/main.py`)

JSON payload values, modelled to nesting depth two: scalars, plus arrays and
objects of scalars. The fan-out helper never inspects the payload, it only
serializes it, so bounded nesting loses nothing for the claims. -/

/-- A scalar JSON value. -/
inductive JsonScalar where
  | null
  | bool (b : Bool)
  | num (n : Int)
  | str (s : String)
  deriving DecidableEq, Repr

/-- A JSON payload: a scalar, an array of scalars, or an object with scalar
values. -/
inductive Json where
  | scalar (v : JsonScalar)
  | arr (elems : List JsonScalar)
  | obj (fields : List (String × JsonScalar))
  deriving DecidableEq, Repr

/-- `json.dumps` escaping of one string character (the two characters that
are always escaped: the quote and the backslash). -/
def escapeChar (c : Char) : String :=
  if c = '"' then "\\\"" else if c = '\\' then "\\\\" else String.singleton c

/-- `json.dumps` escaping of a string body, character by character. -/
def escapeString (s : String) : String :=
  s.data.foldr (fun c acc => escapeChar c ++ acc) ""

/-- `json.dumps` of a scalar. -/
def JsonScalar.dumps : JsonScalar → String
  | .null => "null"
  | .bool true => "true"
  | .bool false => "false"
  | .num n => toString n
  | .str s => "\"" ++ escapeString s ++ "\""

/-- `json.dumps` of a payload (default separators). -/
def Json.dumps : Json → String
  | .scalar v => v.dumps
  | .arr elems => "[" ++ String.intercalate ", " (elems.map JsonScalar.dumps) ++ "]"
  | .obj fields =>
      "\x7b" ++
        String.intercalate ", "
          (fields.map (fun f => "\"" ++ escapeString f.1 ++ "\": " ++ f.2.dumps)) ++
      "\x7d"

/-- `send_data_to_subscribers(user_id, data)`: when `user_id` has a registry
entry, every socket in its set is sent `send_json(json.dumps(data))`, i.e.
the JSON serialization of the *string* `json.dumps(data)`; with no entry
nothing is sent. The result lists the (connection, text-frame) pairs sent. -/
def send_data_to_subscribers (reg : Registry) (u : Int) (data : Json) :
    List (Conn × String) :=
  if hasUser reg u then
    (subsOf reg u).map
      (fun websocket => (websocket, Json.dumps (.scalar (.str (Json.dumps data)))))
  else []

/-! ### Serialization lemmas -/

theorem escapeChar_length_pos (c : Char) : 1 ≤ (escapeChar c).length := by
  unfold escapeChar
  by_cases h1 : c = '"'
  · rw [if_pos h1]; decide
  · rw [if_neg h1]
    by_cases h2 : c = '\\'
    · rw [if_pos h2]; decide
    · rw [if_neg h2]; exact le_rfl

theorem escapeString_length_ge (s : String) : s.length ≤ (escapeString s).length := by
  unfold escapeString
  rw [← String.length_data s]
  induction s.data with
  | nil => simp
  | cons c cs ih =>
      simp only [List.foldr_cons, List.length_cons, String.length_append]
      have := escapeChar_length_pos c
      omega

theorem dumps_str_length (s : String) :
    (Json.dumps (.scalar (.str s))).length = (escapeString s).length + 2 := by
  have h1 : ("\"" : String).length = 1 := rfl
  simp only [Json.dumps, JsonScalar.dumps, String.length_append, h1]
  omega

/-! ## Ingestion timestamp validation (`AgentData.check_timestamp`) -/

/-- A parsed `datetime` value. -/
structure PyDateTime where
  year : Nat
  month : Nat
  day : Nat
  hour : Nat
  minute : Nat
  second : Nat
  deriving DecidableEq, Repr

/-- Decimal value of a digit character. -/
def digit? (c : Char) : Option Nat :=
  if c.isDigit then some (c.toNat - 48) else none

/-- Two-digit field. -/
def twoDigits (a b : Char) : Option Nat :=
  match digit? a, digit? b with
  | some x, some y => some (10 * x + y)
  | _, _ => none

/-- Four-digit field. -/
def fourDigits (a b c d : Char) : Option Nat :=
  match digit? a, digit? b, digit? c, digit? d with
  | some w, some x, some y, some z => some (1000 * w + 100 * x + 10 * y + z)
  | _, _, _, _ => none

/-- Modelled from the spec and the Python standard library:
`datetime.fromisoformat`, which `check_timestamp` calls, is not repository
code. Restricted to the core ISO-8601 grammar `YYYY-MM-DD` or
`YYYY-MM-DDTHH:MM:SS` with plain range checks (day bounded by 31
independently of the month — a simplification of the calendar check). -/
def fromisoformat (s : String) : Option PyDateTime :=
  match s.data with
  | [y1, y2, y3, y4, '-', m1, m2, '-', d1, d2] =>
      match fourDigits y1 y2 y3 y4, twoDigits m1 m2, twoDigits d1 d2 with
      | some y, some m, some d =>
          if 1 ≤ m ∧ m ≤ 12 ∧ 1 ≤ d ∧ d ≤ 31 then some ⟨y, m, d, 0, 0, 0⟩ else none
      | _, _, _ => none
  | [y1, y2, y3, y4, '-', m1, m2, '-', d1, d2, 'T', h1, h2, ':', n1, n2, ':', s1, s2] =>
      match fourDigits y1 y2 y3 y4, twoDigits m1 m2, twoDigits d1 d2,
          twoDigits h1 h2, twoDigits n1 n2, twoDigits s1 s2 with
      | some y, some m, some d, some hh, some nn, some ss =>
          if 1 ≤ m ∧ m ≤ 12 ∧ 1 ≤ d ∧ d ≤ 31 ∧ hh ≤ 23 ∧ nn ≤ 59 ∧ ss ≤ 59 then
            some ⟨y, m, d, hh, nn, ss⟩
          else none
      | _, _, _, _, _, _ => none
  | _ => none

/-- The `timestamp` input value handed to the validator: already a
`datetime`, a string, or a value of any other type (on which
`datetime.fromisoformat` raises `TypeError`). -/
inductive TimestampValue where
  | dt (d : PyDateTime)
  | str (s : String)
  | other
  deriving DecidableEq, Repr

/-- The error message raised by `check_timestamp`, naming the expected
format. -/
def invalidTimestampMsg : String :=
  "Invalid timestamp format. Expected ISO 8601 format (YYYY-MM-DDTHH:MM:SSZ)."

/-- `AgentData.check_timestamp`: a `datetime` value is returned unchanged;
otherwise `datetime.fromisoformat(value)` is attempted, and a `TypeError` or
`ValueError` is converted into a `ValueError` carrying
`invalidTimestampMsg`. -/
def check_timestamp (value : TimestampValue) : Except String PyDateTime :=
  match value with
  | .dt d => .ok d
  | .str s =>
      match fromisoformat s with
      | some t => .ok t
      | none => .error invalidTimestampMsg
  | .other => .error invalidTimestampMsg

/-! ## File data source (`src/src/file_datasource.py`)

Files are modelled as the list of their lines after the header (with line
terminators already stripped, as `.strip()` does for ordinary CSV lines);
`readline()` past the end of the file returns the empty string. -/

/-- Modelled from the spec: `domain/accelerometer.py` is not under `src/`;
three signed integer axes (spec section 3). -/
structure Accelerometer where
  x : Int
  y : Int
  z : Int
  deriving DecidableEq, Repr

/-- Modelled from the spec: `domain/gps.py` is not under `src/`; two
floating-point coordinates (spec section 3), modelled as exact rationals. -/
structure Gps where
  latitude : ℚ
  longitude : ℚ
  deriving DecidableEq, Repr

/-- Modelled from the spec: `domain/parking.py` is not under `src/`; an
integer empty-spot count plus a GPS position (spec section 3). -/
structure Parking where
  empty_count : Int
  gps : Gps
  deriving DecidableEq, Repr

/-- Modelled from the spec: `domain/aggregated_data.py` is not under `src/`;
one accelerometer sample, one GPS sample, one parking sample, a timestamp
and a user id (spec section 3). -/
structure AggregatedData where
  accelerometer : Accelerometer
  gps : Gps
  parking : Parking
  timestamp : Nat
  user_id : Int
  deriving DecidableEq, Repr

/-- Modelled from the spec: `config.USER_ID`, the statically configured user
id of the file data source; `config.py` is not under `src/`. -/
def USER_ID : Int := 1

/-- Python `str.strip()`: leading and trailing whitespace removed. -/
def pyStrip (s : String) : String :=
  String.mk (((s.data.dropWhile Char.isWhitespace).reverse.dropWhile
    Char.isWhitespace).reverse)

/-- Splitting a character list on a separator: `[[]]` on the empty input, so
the result is never the empty list (Python `''.split(',') == ['']`). -/
def splitOnChar (sep : Char) : List Char → List (List Char)
  | [] => [[]]
  | c :: rest =>
      if c = sep then [] :: splitOnChar sep rest
      else
        match splitOnChar sep rest with
        | [] => [[c]]
        | h :: t => (c :: h) :: t

/-- Python `s.split(',')`. -/
def pySplitComma (s : String) : List String :=
  (splitOnChar ',' s.data).map String.mk

/-- Decimal value of a digit string. -/
def digitsToNat (l : List Char) : Nat :=
  l.foldl (fun n c => n * 10 + (c.toNat - 48)) 0

/-- Python `int(s)` on a CSV field: optional minus sign and decimal digits;
`int('')` raises `ValueError` (`none`). -/
def parseInt (s : String) : Option Int :=
  match s.data with
  | '-' :: rest =>
      if rest ≠ [] ∧ rest.all Char.isDigit then some (-(digitsToNat rest : Int))
      else none
  | l => if l ≠ [] ∧ l.all Char.isDigit then some ((digitsToNat l : Int)) else none

/-- Python `float(s)` on a CSV field, restricted to plain decimal notation
`[-]digits[.digits]` (no exponent, underscore or inf/nan forms, which the
CSV inputs do not use); `float('')` raises `ValueError` (`none`). -/
def parseFloat (s : String) : Option ℚ :=
  let signed : Int × List Char :=
    match s.data with
    | '-' :: rest => (-1, rest)
    | l => (1, l)
  match splitOnChar '.' signed.2 with
  | [ip] =>
      if ip ≠ [] ∧ ip.all Char.isDigit then
        some (Rat.divInt (signed.1 * digitsToNat ip) 1)
      else none
  | [ip, fp] =>
      if (ip ≠ [] ∨ fp ≠ []) ∧ ip.all Char.isDigit ∧ fp.all Char.isDigit then
        some (Rat.divInt
          (signed.1 * (digitsToNat ip * 10 ^ fp.length + digitsToNat fp))
          (10 ^ fp.length))
      else none
  | _ => none

/-- `map(int, fields)` fully consumed by argument unpacking: every field
converted left to right, the first failing conversion raising `ValueError`. -/
def mapParseInt : List String → Option (List Int)
  | [] => some []
  | s :: rest =>
      match parseInt s with
      | none => none
      | some v => (mapParseInt rest).map (fun vs => v :: vs)

/-- `map(float, fields)`, as `mapParseInt`. -/
def mapParseFloat : List String → Option (List ℚ)
  | [] => some []
  | s :: rest =>
      match parseFloat s with
      | none => none
      | some v => (mapParseFloat rest).map (fun vs => v :: vs)

/-- `Accelerometer(*values)`: exactly three arguments or `TypeError`. -/
def mkAccelerometer : List Int → Option Accelerometer
  | [x, y, z] => some ⟨x, y, z⟩
  | _ => none

/-- `Gps(*values)`: exactly two arguments or `TypeError`. -/
def mkGps : List ℚ → Option Gps
  | [la, lo] => some ⟨la, lo⟩
  | _ => none

/-- Outcome of one `read()` call. -/
inductive ReadResult where
  /-- An `AggregatedData` value was returned. -/
  | ok (d : AggregatedData)
  /-- The guard was false and the function fell through, returning `None`. -/
  | noneReturned
  /-- An uncaught exception (`ValueError`/`TypeError`) was raised. -/
  | error (msg : String)
  deriving DecidableEq, Repr

/-- Open file handles of a `FileDatasource` after `startReading`: the
remaining unread lines of each file. -/
structure FileDatasource where
  accelerometer_file : List String
  gps_file : List String
  parking_file : List String
  deriving DecidableEq, Repr

/-- `file.readline().strip()`: the next line, or the empty string at
end of file. -/
def readline : List String → String × List String
  | [] => ("", [])
  | l :: rest => (l, rest)

/-- The body of `read()` once the three lines are in hand, in source
evaluation order: the truthiness guard on the three split field lists (never
false, since `split` always yields a non-empty list), then
`int(parking_data[0])`, `Gps(*map(float, parking_data[1:]))`,
`Accelerometer(*map(int, accelerometer_data))`, `Gps(*map(float, gps_data))`,
and the assembled `AggregatedData` stamped with the current time and
`config.USER_ID`. -/
def parseTriple (accelerometer_line gps_line parking_line : String) (now : Nat) :
    ReadResult :=
  let accelerometer_data := pySplitComma (pyStrip accelerometer_line)
  let gps_data := pySplitComma (pyStrip gps_line)
  let parking_data := pySplitComma (pyStrip parking_line)
  if accelerometer_data ≠ [] ∧ gps_data ≠ [] ∧ parking_data ≠ [] then
    match parseInt (parking_data.headD "") with
    | none => .error "ValueError: invalid literal for int()"
    | some empty_count =>
        match mapParseFloat (parking_data.drop 1) with
        | none => .error "ValueError: could not convert string to float"
        | some parking_vals =>
            match mkGps parking_vals with
            | none => .error "TypeError: Gps() takes two arguments"
            | some parking_gps =>
                match mapParseInt accelerometer_data with
                | none => .error "ValueError: invalid literal for int()"
                | some accelerometer_vals =>
                    match mkAccelerometer accelerometer_vals with
                    | none => .error "TypeError: Accelerometer() takes three arguments"
                    | some accelerometer =>
                        match mapParseFloat gps_data with
                        | none => .error "ValueError: could not convert string to float"
                        | some gps_vals =>
                            match mkGps gps_vals with
                            | none => .error "TypeError: Gps() takes two arguments"
                            | some gps =>
                                .ok ⟨accelerometer, gps,
                                  ⟨empty_count, parking_gps⟩, now, USER_ID⟩
  else .noneReturned

/-- `FileDatasource.read()`: one line from each open file (the handles
advance even when parsing later fails), then the parse of the triple. -/
def FileDatasource.read (s : FileDatasource) (now : Nat) :
    ReadResult × FileDatasource :=
  let (accelerometer_line, arest) := readline s.accelerometer_file
  let (gps_line, grest) := readline s.gps_file
  let (parking_line, prest) := readline s.parking_file
  (parseTriple accelerometer_line gps_line parking_line now,
   { accelerometer_file := arest, gps_file := grest, parking_file := prest })

/-- `startReading()`: opens the three files and discards the header line of
each with `next(file)`, which raises `StopIteration` (`none`) on an empty
file. -/
def startReading (accelerometer_lines gps_lines parking_lines : List String) :
    Option FileDatasource :=
  match accelerometer_lines, gps_lines, parking_lines with
  | _ :: arest, _ :: grest, _ :: prest =>
      some { accelerometer_file := arest, gps_file := grest, parking_file := prest }
  | _, _, _ => none

/-- `n` successive `read()` calls, the clock advancing between calls. -/
def FileDatasource.reads (s : FileDatasource) (t : Nat) :
    Nat → List ReadResult × FileDatasource
  | 0 => ([], s)
  | n + 1 =>
      let (r, s₁) := s.read t
      let (rest, s₂) := s₁.reads (t + 1) n
      (r :: rest, s₂)

/-- The results of reading three aligned line lists in lockstep. -/
def expectedReads : List String → List String → List String → Nat → List ReadResult
  | a :: arest, g :: grest, p :: prest, t =>
      parseTriple a g p t :: expectedReads arest grest prest (t + 1)
  | _, _, _, _ => []

/-- An accelerometer CSV line parseable into an `Accelerometer`. -/
def wfAccelerometerLine (l : String) : Bool :=
  match mapParseInt (pySplitComma (pyStrip l)) with
  | some vals => vals.length == 3
  | none => false

/-- A GPS CSV line parseable into a `Gps`. -/
def wfGpsLine (l : String) : Bool :=
  match mapParseFloat (pySplitComma (pyStrip l)) with
  | some vals => vals.length == 2
  | none => false

/-- A parking CSV line parseable into a count and a `Gps`. -/
def wfParkingLine (l : String) : Bool :=
  let fields := pySplitComma (pyStrip l)
  (parseInt (fields.headD "")).isSome &&
    match mapParseFloat (fields.drop 1) with
    | some vals => vals.length == 2
    | none => false

/-! ### File data source lemmas -/

theorem mkAccelerometer_of_length {vals : List Int} (h : vals.length = 3) :
    ∃ a, mkAccelerometer vals = some a := by
  rcases vals with _ | ⟨x, _ | ⟨y, _ | ⟨z, _ | ⟨w, rest⟩⟩⟩⟩
  · simp at h
  · simp at h
  · simp at h
  · exact ⟨⟨x, y, z⟩, rfl⟩
  · simp only [List.length_cons] at h; omega

theorem mkGps_of_length {vals : List ℚ} (h : vals.length = 2) :
    ∃ g, mkGps vals = some g := by
  rcases vals with _ | ⟨la, _ | ⟨lo, _ | ⟨w, rest⟩⟩⟩
  · simp at h
  · simp at h
  · exact ⟨⟨la, lo⟩, rfl⟩
  · simp only [List.length_cons] at h; omega

theorem mapParseInt_ne_nil_of_length {fields : List String} {vals : List Int}
    (h : mapParseInt fields = some vals) (hl : vals.length ≠ 0) : fields ≠ [] := by
  intro hf
  subst hf
  simp only [mapParseInt] at h
  injection h with h
  exact hl (by rw [← h]; rfl)

theorem parseInt_empty : parseInt "" = none := by decide

/-- On well-formed lines, `read()`'s parsing succeeds with an
`AggregatedData`. -/
theorem parseTriple_ok {a g p : String}
    (ha : wfAccelerometerLine a = true) (hg : wfGpsLine g = true)
    (hp : wfParkingLine p = true) (t : Nat) :
    ∃ d, parseTriple a g p t = ReadResult.ok d := by
  unfold wfAccelerometerLine at ha
  unfold wfGpsLine at hg
  unfold wfParkingLine at hp
  rcases hma : mapParseInt (pySplitComma (pyStrip a)) with _ | avals
  · rw [hma] at ha; exact absurd ha (by simp)
  rw [hma] at ha
  have halen : avals.length = 3 := by simpa using ha
  rcases hmg : mapParseFloat (pySplitComma (pyStrip g)) with _ | gvals
  · rw [hmg] at hg; exact absurd hg (by simp)
  rw [hmg] at hg
  have hglen : gvals.length = 2 := by simpa using hg
  simp only [Bool.and_eq_true] at hp
  obtain ⟨hp0, hptail⟩ := hp
  rcases hpi : parseInt ((pySplitComma (pyStrip p)).headD "") with _ | empty_count
  · rw [hpi] at hp0; simp at hp0
  rcases hmp : mapParseFloat ((pySplitComma (pyStrip p)).drop 1) with _ | pvals
  · rw [hmp] at hptail; exact absurd hptail (by simp)
  rw [hmp] at hptail
  have hplen : pvals.length = 2 := by simpa using hptail
  obtain ⟨acc, hacc⟩ := mkAccelerometer_of_length halen
  obtain ⟨gps, hgps⟩ := mkGps_of_length hglen
  obtain ⟨pgps, hpgps⟩ := mkGps_of_length hplen
  have hane : pySplitComma (pyStrip a) ≠ [] :=
    mapParseInt_ne_nil_of_length hma (by omega)
  have hgne : pySplitComma (pyStrip g) ≠ [] := by
    intro hf
    rw [hf] at hmg
    simp only [mapParseFloat] at hmg
    injection hmg with hmg
    rw [← hmg] at hglen
    simp at hglen
  have hpne : pySplitComma (pyStrip p) ≠ [] := by
    intro hf
    rw [hf] at hpi
    rw [List.headD_nil] at hpi
    rw [parseInt_empty] at hpi
    cases hpi
  refine ⟨⟨acc, gps, ⟨empty_count, pgps⟩, t, USER_ID⟩, ?_⟩
  unfold parseTriple
  rw [if_pos ⟨hane, hgne, hpne⟩]
  simp only [hpi, hmp, hpgps, hma, hacc, hmg, hgps]

/-- Reading exhausted files: `readline` returns the empty string,
`''.split(',')` is `['']` which is truthy, and `int('')` raises
`ValueError`. -/
theorem read_exhausted (s : FileDatasource)
    (hs : s = ⟨[], [], []⟩) (t : Nat) :
    (s.read t).1 = ReadResult.error "ValueError: invalid literal for int()" := by
  subst hs; rfl

/-- `n` aligned reads consume the three files in lockstep and return the
expected per-line results in input order. -/
theorem reads_aligned (la lg lp : List String) (t : Nat)
    (hg : lg.length = la.length) (hp : lp.length = la.length) :
    FileDatasource.reads ⟨la, lg, lp⟩ t la.length =
      (expectedReads la lg lp t, (⟨[], [], []⟩ : FileDatasource)) := by
  induction la generalizing lg lp t with
  | nil =>
      rcases lg with _ | ⟨g, grest⟩
      · rcases lp with _ | ⟨p, prest⟩
        · rfl
        · simp at hp
      · simp at hg
  | cons a arest ih =>
      rcases lg with _ | ⟨g, grest⟩
      · simp at hg
      rcases lp with _ | ⟨p, prest⟩
      · simp at hp
      simp only [List.length_cons, Nat.add_right_cancel_iff] at hg hp
      have hstep := ih grest prest (t + 1) hg hp
      simp only [List.length_cons, FileDatasource.reads, FileDatasource.read,
        readline, expectedReads]
      rw [hstep]

theorem expectedReads_all_ok (la lg lp : List String) (t : Nat)
    (hwa : ∀ l ∈ la, wfAccelerometerLine l = true)
    (hwg : ∀ l ∈ lg, wfGpsLine l = true)
    (hwp : ∀ l ∈ lp, wfParkingLine l = true) :
    ∀ r ∈ expectedReads la lg lp t, ∃ d, r = ReadResult.ok d := by
  induction la generalizing lg lp t with
  | nil => intro r hr; simp [expectedReads] at hr
  | cons a arest ih =>
      rcases lg with _ | ⟨g, grest⟩
      · intro r hr; simp [expectedReads] at hr
      rcases lp with _ | ⟨p, prest⟩
      · intro r hr; simp [expectedReads] at hr
      intro r hr
      simp only [expectedReads, List.mem_cons] at hr
      rcases hr with rfl | hr
      · obtain ⟨d, hd⟩ := parseTriple_ok (hwa a (by simp)) (hwg g (by simp))
          (hwp p (by simp)) t
        exact ⟨d, hd⟩
      · exact ih grest prest (t + 1)
          (fun l hl => hwa l (List.mem_cons_of_mem a hl))
          (fun l hl => hwg l (List.mem_cons_of_mem g hl))
          (fun l hl => hwp l (List.mem_cons_of_mem p hl)) r hr

/-! ## Claim theorems -/

/-- C1: for every valid create request on a well-formed table, the row
returned by the create endpoint carries exactly the submitted `road_state`,
`user_id`, `x`, `y`, `z`, `latitude` and `longitude`, and a subsequent
read-one with the id returned by create yields that same row. -/
theorem create_then_read_roundtrip (db : Database)
    (data : ProcessedAgentDataCreate) (now : Nat) (hwf : db.WF) :
    ((create_processed_agent_data db data now).1.road_state = data.road_state ∧
     (create_processed_agent_data db data now).1.user_id = data.user_id ∧
     (create_processed_agent_data db data now).1.x = data.x ∧
     (create_processed_agent_data db data now).1.y = data.y ∧
     (create_processed_agent_data db data now).1.z = data.z ∧
     (create_processed_agent_data db data now).1.latitude = data.latitude ∧
     (create_processed_agent_data db data now).1.longitude = data.longitude) ∧
    read_processed_agent_data (create_processed_agent_data db data now).2
        (create_processed_agent_data db data now).1.id =
      some (create_processed_agent_data db data now).1 := by
  refine ⟨⟨rfl, rfl, rfl, rfl, rfl, rfl, rfl⟩, ?_⟩
  have hne : ∀ r ∈ db.rows, r.id ≠ db.nextId :=
    fun r hm => Nat.ne_of_lt (hwf.2 r hm)
  show findRow (db.rows ++ [(create_processed_agent_data db data now).1])
      db.nextId = some (create_processed_agent_data db data now).1
  rw [findRow_append_of_not_mem hne]
  exact findRow_singleton_self _

/-- Witness for C1 at the empty table and a concrete request. -/
theorem create_then_read_roundtrip_witness :
    Database.WF ⟨[], 0⟩ ∧
    (((create_processed_agent_data ⟨[], 0⟩ ⟨"dry", 1, 1, 2, 3, 50, 30⟩ 5).1.road_state = "dry" ∧
      (create_processed_agent_data ⟨[], 0⟩ ⟨"dry", 1, 1, 2, 3, 50, 30⟩ 5).1.user_id = 1 ∧
      (create_processed_agent_data ⟨[], 0⟩ ⟨"dry", 1, 1, 2, 3, 50, 30⟩ 5).1.x = 1 ∧
      (create_processed_agent_data ⟨[], 0⟩ ⟨"dry", 1, 1, 2, 3, 50, 30⟩ 5).1.y = 2 ∧
      (create_processed_agent_data ⟨[], 0⟩ ⟨"dry", 1, 1, 2, 3, 50, 30⟩ 5).1.z = 3 ∧
      (create_processed_agent_data ⟨[], 0⟩ ⟨"dry", 1, 1, 2, 3, 50, 30⟩ 5).1.latitude = 50 ∧
      (create_processed_agent_data ⟨[], 0⟩ ⟨"dry", 1, 1, 2, 3, 50, 30⟩ 5).1.longitude = 30) ∧
     read_processed_agent_data
         (create_processed_agent_data ⟨[], 0⟩ ⟨"dry", 1, 1, 2, 3, 50, 30⟩ 5).2
         (create_processed_agent_data ⟨[], 0⟩ ⟨"dry", 1, 1, 2, 3, 50, 30⟩ 5).1.id =
       some (create_processed_agent_data ⟨[], 0⟩ ⟨"dry", 1, 1, 2, 3, 50, 30⟩ 5).1) :=
  ⟨by decide, create_then_read_roundtrip ⟨[], 0⟩ ⟨"dry", 1, 1, 2, 3, 50, 30⟩ 5 (by decide)⟩

/-- C3: for an id with no row in the table (never created or already
deleted), read-one, update and delete each signal the 404 not-found
condition, and the mutating endpoints leave the stored table unchanged. -/
theorem not_found_leaves_table_unchanged (db : Database) (i : Nat)
    (data : ProcessedAgentDataCreate) (h : findRow db.rows i = none) :
    read_processed_agent_data db i = none ∧
    update_processed_agent_data db i data = (none, db) ∧
    delete_processed_agent_data db i = (none, db) := by
  refine ⟨h, ?_, ?_⟩
  · unfold update_processed_agent_data
    rw [h]
  · unfold delete_processed_agent_data
    rw [h]

/-- Witness for C3 at the empty table and id 7. -/
theorem not_found_leaves_table_unchanged_witness :
    findRow (Database.rows ⟨[], 0⟩) 7 = none ∧
    (read_processed_agent_data ⟨[], 0⟩ 7 = none ∧
     update_processed_agent_data ⟨[], 0⟩ 7 ⟨"wet", 2, 0, 0, 0, 0, 0⟩ = (none, ⟨[], 0⟩) ∧
     delete_processed_agent_data ⟨[], 0⟩ 7 = (none, ⟨[], 0⟩)) :=
  ⟨by decide,
   not_found_leaves_table_unchanged ⟨[], 0⟩ 7 ⟨"wet", 2, 0, 0, 0, 0, 0⟩ (by decide)⟩

/-- C6: update is idempotent — when updating row `i` with a body succeeds,
re-applying the same body to the resulting table returns the same stored
row and leaves the table identical. -/
theorem update_idempotent (db : Database) (i : Nat)
    (data : ProcessedAgentDataCreate) (r : StoredRow) (db' : Database)
    (h : update_processed_agent_data db i data = (some r, db')) :
    update_processed_agent_data db' i data = (some r, db') := by
  unfold update_processed_agent_data at h ⊢
  rcases hf : findRow db.rows i with _ | r₀
  · rw [hf] at h
    injection h with h1 h2
    cases h1
  · rw [hf] at h
    injection h with h1 h2
    injection h1 with h1
    subst h2
    subst h1
    rw [findRow_updateRows data hf]
    simp only [updateRows_idem, applyUpdate_idem]

/-- Witness for C6 at a one-row table. -/
theorem update_idempotent_witness :
    update_processed_agent_data ⟨[⟨1, "dry", 1, 1, 2, 3, 50, 30, 5⟩], 2⟩ 1
        ⟨"wet", 2, 4, 5, 6, 7, 8⟩ =
      (some ⟨1, "wet", 2, 4, 5, 6, 7, 8, 5⟩, ⟨[⟨1, "wet", 2, 4, 5, 6, 7, 8, 5⟩], 2⟩) ∧
    update_processed_agent_data ⟨[⟨1, "wet", 2, 4, 5, 6, 7, 8, 5⟩], 2⟩ 1
        ⟨"wet", 2, 4, 5, 6, 7, 8⟩ =
      (some ⟨1, "wet", 2, 4, 5, 6, 7, 8, 5⟩, ⟨[⟨1, "wet", 2, 4, 5, 6, 7, 8, 5⟩], 2⟩) :=
  ⟨by decide,
   update_idempotent ⟨[⟨1, "dry", 1, 1, 2, 3, 50, 30, 5⟩], 2⟩ 1
     ⟨"wet", 2, 4, 5, 6, 7, 8⟩ ⟨1, "wet", 2, 4, 5, 6, 7, 8, 5⟩
     ⟨[⟨1, "wet", 2, 4, 5, 6, 7, 8, 5⟩], 2⟩ (by decide)⟩

/-- C7: a successful update replaces exactly the seven request fields of
the stored row and preserves the row's `id` and `timestamp`. -/
theorem update_replaces_fields_preserves_id_timestamp (db : Database)
    (i : Nat) (data : ProcessedAgentDataCreate) (r : StoredRow)
    (h : findRow db.rows i = some r) :
    ∃ r' db', update_processed_agent_data db i data = (some r', db') ∧
      r'.id = r.id ∧ r'.timestamp = r.timestamp ∧
      r'.road_state = data.road_state ∧ r'.user_id = data.user_id ∧
      r'.x = data.x ∧ r'.y = data.y ∧ r'.z = data.z ∧
      r'.latitude = data.latitude ∧ r'.longitude = data.longitude := by
  refine ⟨applyUpdate data r, ⟨updateRows db.rows i data, db.nextId⟩, ?_,
    rfl, rfl, rfl, rfl, rfl, rfl, rfl, rfl, rfl⟩
  unfold update_processed_agent_data
  rw [h]

/-- Witness for C7 at a one-row table. -/
theorem update_replaces_fields_preserves_id_timestamp_witness :
    findRow (Database.rows ⟨[⟨1, "dry", 1, 1, 2, 3, 50, 30, 5⟩], 2⟩) 1 =
      some ⟨1, "dry", 1, 1, 2, 3, 50, 30, 5⟩ ∧
    (∃ r' db',
      update_processed_agent_data ⟨[⟨1, "dry", 1, 1, 2, 3, 50, 30, 5⟩], 2⟩ 1
          ⟨"wet", 2, 4, 5, 6, 7, 8⟩ = (some r', db') ∧
      r'.id = 1 ∧ r'.timestamp = 5 ∧
      r'.road_state = "wet" ∧ r'.user_id = 2 ∧
      r'.x = 4 ∧ r'.y = 5 ∧ r'.z = 6 ∧ r'.latitude = 7 ∧ r'.longitude = 8) :=
  ⟨by decide,
   update_replaces_fields_preserves_id_timestamp
     ⟨[⟨1, "dry", 1, 1, 2, 3, 50, 30, 5⟩], 2⟩ 1 ⟨"wet", 2, 4, 5, 6, 7, 8⟩
     ⟨1, "dry", 1, 1, 2, 3, 50, 30, 5⟩ (by decide)⟩

/-- C8: delete is a one-shot transition — with unique ids, the first delete
of an existing row returns the row's prior contents and removes it, and a
second delete with the same id signals the 404 not-found condition. -/
theorem delete_one_shot (db : Database) (i : Nat) (r : StoredRow)
    (hnd : (db.rows.map StoredRow.id).Nodup) (h : findRow db.rows i = some r) :
    ∃ db', delete_processed_agent_data db i = (some r, db') ∧
      findRow db'.rows i = none ∧
      delete_processed_agent_data db' i = (none, db') := by
  have hrm := findRow_removeRow_of_nodup hnd h
  refine ⟨⟨removeRow db.rows i, db.nextId⟩, ?_, hrm, ?_⟩
  · unfold delete_processed_agent_data
    rw [h]
  · unfold delete_processed_agent_data
    show (match findRow (removeRow db.rows i) i with
      | none => (none, (⟨removeRow db.rows i, db.nextId⟩ : Database))
      | some db_item =>
          (some db_item, (⟨removeRow (removeRow db.rows i) i, db.nextId⟩ : Database))) =
      (none, (⟨removeRow db.rows i, db.nextId⟩ : Database))
    rw [hrm]

/-- Witness for C8 at a one-row table. -/
theorem delete_one_shot_witness :
    ((Database.rows ⟨[⟨1, "dry", 1, 1, 2, 3, 50, 30, 5⟩], 2⟩).map StoredRow.id).Nodup ∧
    findRow (Database.rows ⟨[⟨1, "dry", 1, 1, 2, 3, 50, 30, 5⟩], 2⟩) 1 =
      some ⟨1, "dry", 1, 1, 2, 3, 50, 30, 5⟩ ∧
    (∃ db', delete_processed_agent_data ⟨[⟨1, "dry", 1, 1, 2, 3, 50, 30, 5⟩], 2⟩ 1 =
        (some ⟨1, "dry", 1, 1, 2, 3, 50, 30, 5⟩, db') ∧
      findRow db'.rows 1 = none ∧
      delete_processed_agent_data db' 1 = (none, db')) :=
  ⟨by decide, by decide,
   delete_one_shot ⟨[⟨1, "dry", 1, 1, 2, 3, 50, 30, 5⟩], 2⟩ 1
     ⟨1, "dry", 1, 1, 2, 3, 50, 30, 5⟩ (by decide) (by decide)⟩

/-- C2 counterexample: with only a header line in each input file, the
first `read()` call past the data (which per the claim should yield the
end-of-stream signal of returning nothing useful, i.e. Python `None`)
instead raises `ValueError`: `readline()` returns `''`, the comma-split
`['']` is non-empty so the truthiness guard passes, and `int('')` fails. -/
theorem fileDatasource_eof_counterexample :
    startReading ["h"] ["h"] ["h"] = some ⟨[], [], []⟩ ∧
    ((⟨[], [], []⟩ : FileDatasource).read 0).1 =
      ReadResult.error "ValueError: invalid literal for int()" ∧
    ((⟨[], [], []⟩ : FileDatasource).read 0).1 ≠ ReadResult.noneReturned := by
  refine ⟨rfl, rfl, ?_⟩
  decide

/-- C2 (amended): given a header line plus `N` aligned well-formed data
lines per file, `startReading()` succeeds and `N` `read()` calls yield
exactly the `N` per-line aggregated records in input line order; the
`(N+1)`-th call does not return a distinguished end-of-stream value — it
raises `ValueError` from `int('')`, because the empty-line split `['']`
never falsifies the guard. -/
theorem fileDatasource_reads_then_valueerror
    (aHeader gHeader pHeader : String) (la lg lp : List String) (t : Nat)
    (hg : lg.length = la.length) (hp : lp.length = la.length)
    (hwa : ∀ l ∈ la, wfAccelerometerLine l = true)
    (hwg : ∀ l ∈ lg, wfGpsLine l = true)
    (hwp : ∀ l ∈ lp, wfParkingLine l = true) :
    ∃ s, startReading (aHeader :: la) (gHeader :: lg) (pHeader :: lp) = some s ∧
      (s.reads t la.length).1 = expectedReads la lg lp t ∧
      (∀ r ∈ (s.reads t la.length).1, ∃ d, r = ReadResult.ok d) ∧
      ((s.reads t la.length).2.read (t + la.length)).1 =
        ReadResult.error "ValueError: invalid literal for int()" := by
  refine ⟨⟨la, lg, lp⟩, rfl, ?_, ?_, ?_⟩
  · rw [reads_aligned la lg lp t hg hp]
  · rw [reads_aligned la lg lp t hg hp]
    exact expectedReads_all_ok la lg lp t hwa hwg hwp
  · rw [reads_aligned la lg lp t hg hp]
    exact read_exhausted _ rfl _

/-- Witness for the amended C2 at one data line per file. -/
theorem fileDatasource_reads_then_valueerror_witness :
    (["4.5,6.0"].length = ["1,2,3"].length ∧
     ["2,7.5,8.25"].length = ["1,2,3"].length ∧
     (∀ l ∈ ["1,2,3"], wfAccelerometerLine l = true) ∧
     (∀ l ∈ ["4.5,6.0"], wfGpsLine l = true) ∧
     (∀ l ∈ ["2,7.5,8.25"], wfParkingLine l = true)) ∧
    (∃ s, startReading ["x,y,z", "1,2,3"] ["lat,lon", "4.5,6.0"]
          ["cnt,lat,lon", "2,7.5,8.25"] = some s ∧
      (s.reads 0 ["1,2,3"].length).1 =
        expectedReads ["1,2,3"] ["4.5,6.0"] ["2,7.5,8.25"] 0 ∧
      (∀ r ∈ (s.reads 0 ["1,2,3"].length).1, ∃ d, r = ReadResult.ok d) ∧
      ((s.reads 0 ["1,2,3"].length).2.read (0 + ["1,2,3"].length)).1 =
        ReadResult.error "ValueError: invalid literal for int()") :=
  ⟨⟨by decide, by decide, by decide, by decide, by decide⟩,
   fileDatasource_reads_then_valueerror "x,y,z" "lat,lon" "cnt,lat,lon"
     ["1,2,3"] ["4.5,6.0"] ["2,7.5,8.25"] 0 (by decide) (by decide)
     (by decide) (by decide) (by decide)⟩

/-- C4 counterexample: in the registry state where user 1 has an empty
subscriber set, the disconnect removal of the absent connection 5 raises
`KeyError` (modelled `none`) — it is not a successful no-op as the claim
states. -/
theorem wsDisconnect_absent_counterexample :
    (5 ∉ subsOf [((1 : Int), ([] : List Conn))] 1) ∧
    wsDisconnect [((1 : Int), ([] : List Conn))] 1 5 = none := by
  decide

/-- C4 (amended): removing a connection from its user's subscriber set on
disconnect fails — Python `set.remove` (or the dict lookup itself) raises
`KeyError` — whenever the connection is already absent from that set; it is
not a no-op. -/
theorem wsDisconnect_absent_raises (reg : Registry) (u : Int) (c : Conn)
    (h : c ∉ subsOf reg u) : wsDisconnect reg u c = none := by
  unfold wsDisconnect
  by_cases hu : hasUser reg u
  · rw [if_pos hu]
    unfold removeConn
    rw [if_neg h]
  · rw [if_neg hu]

/-- Witness for the amended C4: user 1 subscribes connection 7 only, so
removing connection 5 raises. -/
theorem wsDisconnect_absent_raises_witness :
    (5 ∉ subsOf [((1 : Int), [7])] 1) ∧
    wsDisconnect [((1 : Int), [7])] 1 5 = none :=
  ⟨by decide, wsDisconnect_absent_raises [((1 : Int), [7])] 1 5 (by decide)⟩

/-- C5: in every reachable registry state, a connection registered under a
user id belongs to no other user's subscriber set (membership determines
the user uniquely), and after a successful disconnect the connection
belongs to no user's subscriber set at all. -/
theorem websocket_registration_exclusive (reg : Registry) (h : Reachable reg) :
    (∀ c u u', c ∈ subsOf reg u → c ∈ subsOf reg u' → u = u') ∧
    (∀ u c reg', wsDisconnect reg u c = some reg' → ∀ v, c ∉ subsOf reg' v) := by
  have hinv := reachable_registryInv h
  exact ⟨hinv.2, fun u c reg' hd v => wsDisconnect_not_mem hinv hd v⟩

/-- Witness for C5 at the reachable state after connection 5 joins user 1. -/
theorem websocket_registration_exclusive_witness :
    (∀ c u u', c ∈ subsOf (wsConnect [] 1 5) u →
      c ∈ subsOf (wsConnect [] 1 5) u' → u = u') ∧
    (∀ u c reg', wsDisconnect (wsConnect [] 1 5) u c = some reg' →
      ∀ v, c ∉ subsOf reg' v) :=
  websocket_registration_exclusive (wsConnect [] 1 5)
    (Reachable.connect Reachable.init (fun v => by simp [subsOf]))

/-- C9: the ingestion timestamp validator accepts a `datetime` value
unchanged, accepts a string that `fromisoformat` parses (with the parsed
timestamp), and rejects a timestamp that does not parse with an error whose
message names the expected ISO-8601 format. -/
theorem check_timestamp_iso8601 (d : PyDateTime) (s : String) :
    check_timestamp (.dt d) = .ok d ∧
    (∀ t, fromisoformat s = some t → check_timestamp (.str s) = .ok t) ∧
    (fromisoformat s = none →
      check_timestamp (.str s) = .error invalidTimestampMsg ∧
      invalidTimestampMsg =
        "Invalid timestamp format. Expected ISO 8601 format (YYYY-MM-DDTHH:MM:SSZ).") := by
  refine ⟨rfl, ?_, ?_⟩
  · intro t ht
    simp only [check_timestamp, ht]
  · intro hn
    refine ⟨?_, rfl⟩
    simp only [check_timestamp, hn]

/-- Witness for C9 with a parseable and a non-parseable timestamp string. -/
theorem check_timestamp_iso8601_witness :
    (fromisoformat "2024-01-02T03:04:05" = some ⟨2024, 1, 2, 3, 4, 5⟩ ∧
     check_timestamp (.str "2024-01-02T03:04:05") = .ok ⟨2024, 1, 2, 3, 4, 5⟩) ∧
    (fromisoformat "02.01.2024" = none ∧
     check_timestamp (.str "02.01.2024") = .error invalidTimestampMsg) :=
  ⟨⟨by decide,
    (check_timestamp_iso8601 ⟨2024, 1, 2, 3, 4, 5⟩ "2024-01-02T03:04:05").2.1
      ⟨2024, 1, 2, 3, 4, 5⟩ (by decide)⟩,
   ⟨by decide,
    ((check_timestamp_iso8601 ⟨2024, 1, 2, 3, 4, 5⟩ "02.01.2024").2.2 (by decide)).1⟩⟩

/-- C10: when the user id has a registry entry, the fan-out helper sends
every registered socket the JSON serialization of the *string*
`json.dumps(data)` — a doubly-encoded JSON text, never equal to the single
serialization of the payload itself; when the user id has no registry
entry, nothing is sent. -/
theorem send_data_doubly_encodes (reg : Registry) (u : Int) (data : Json) :
    (hasUser reg u = true →
      send_data_to_subscribers reg u data =
        (subsOf reg u).map (fun websocket =>
          (websocket, Json.dumps (.scalar (.str (Json.dumps data))))) ∧
      ∀ m ∈ send_data_to_subscribers reg u data, m.2 ≠ Json.dumps data) ∧
    (hasUser reg u = false → send_data_to_subscribers reg u data = []) := by
  constructor
  · intro hu
    constructor
    · unfold send_data_to_subscribers
      rw [if_pos hu]
    · intro m hm heq
      unfold send_data_to_subscribers at hm
      rw [if_pos hu] at hm
      obtain ⟨ws, hws, rfl⟩ := List.mem_map.mp hm
      have hlen := congrArg String.length heq
      rw [dumps_str_length] at hlen
      have hge := escapeString_length_ge (Json.dumps data)
      omega
  · intro hu
    unfold send_data_to_subscribers
    rw [if_neg (by simp [hu])]

/-- Witness for C10: user 7 has sockets 1 and 2; user 9 has no entry. -/
theorem send_data_doubly_encodes_witness :
    (hasUser [((7 : Int), [1, 2])] 7 = true ∧
     (send_data_to_subscribers [((7 : Int), [1, 2])] 7 (.scalar (.num 3)) =
        (subsOf [((7 : Int), [1, 2])] 7).map (fun websocket =>
          (websocket, Json.dumps (.scalar (.str (Json.dumps (.scalar (.num 3))))))) ∧
      ∀ m ∈ send_data_to_subscribers [((7 : Int), [1, 2])] 7 (.scalar (.num 3)),
        m.2 ≠ Json.dumps (.scalar (.num 3)))) ∧
    (hasUser [((7 : Int), [1, 2])] 9 = false ∧
     send_data_to_subscribers [((7 : Int), [1, 2])] 9 (.scalar (.num 3)) = []) :=
  ⟨⟨by decide,
    (send_data_doubly_encodes [((7 : Int), [1, 2])] 7 (.scalar (.num 3))).1 (by decide)⟩,
   ⟨by decide,
    (send_data_doubly_encodes [((7 : Int), [1, 2])] 9 (.scalar (.num 3))).2 (by decide)⟩⟩

end IoTLabs
